import Mathlib

/-!
Verification of the agents repository: a shallow embedding of the
deterministic parts of the community-contribution example apps
(sidekick worker/evaluator graphs, the deep-research orchestrator,
the planner schemas, the expense-tracker tools, the rate-limit guard),
with theorems settling the specification claims about them.

LLM calls and network I/O are modelled by oracle parameters (the
outcome of each external call is an input to the embedded function);
everything the repository computes around those calls is translated
directly from the Python source.
-/

/-! ## Messages shared by the sidekick variants

langchain message objects are modelled by their role, textual content
and the list of tool calls attached to an AI message.  Python
truthiness of an Optional[str] is captured by truthyStr. -/

inductive Role where
  | system
  | human
  | ai
  | tool
deriving DecidableEq, Repr

structure Message where
  role : Role
  content : String
  tool_calls : List String
deriving DecidableEq, Repr

def truthyStr : Option String → Bool
  | none => false
  | some s => s != ""

namespace SidekickVinamra

/-- State from 4_langgraph/community_contributions/sidekick_vinamra/sidekick.py:
messages, success_criteria, feedback_on_work, success_criteria_met,
user_input_needed, clarification_question, guardrails_issues. -/
structure State where
  messages : List Message
  success_criteria : String
  feedback_on_work : Option String
  success_criteria_met : Bool
  user_input_needed : Bool
  clarification_question : Option String
  guardrails_issues : List String
deriving DecidableEq, Repr

/-- Field names of the State TypedDict, in declaration order. -/
def stateFields : List String :=
  ["messages", "success_criteria", "feedback_on_work",
   "success_criteria_met", "user_input_needed",
   "clarification_question", "guardrails_issues"]

/-- Sidekick.route_based_on_evaluation: END when the success criteria
are met or user input is needed, otherwise back to the worker. -/
def route_based_on_evaluation (state : State) : String :=
  if state.success_criteria_met || state.user_input_needed then "END"
  else "worker"

/-- Node names registered by Sidekick.build_graph via add_node. -/
def graphNodes : List String :=
  ["worker", "tools", "clarification_check", "evaluator"]

/-- Source nodes of the add_conditional_edges calls in Sidekick.build_graph. -/
def graphConditionalEdges : List String :=
  ["worker", "clarification_check", "evaluator"]

/-- Keys of the dict returned by each node function (the fields the
node update writes); the tools node is a langgraph ToolNode, which
appends tool result messages. -/
def nodeUpdateKeys : List (String × List String) :=
  [("worker", ["messages"]),
   ("tools", ["messages"]),
   ("clarification_check", ["user_input_needed", "clarification_question"]),
   ("evaluator", ["messages", "feedback_on_work",
                  "success_criteria_met", "user_input_needed"])]

end SidekickVinamra

namespace SidekickAzure

/-- State from
4_langgraph/community_contributions/sidekick-Personal-CoWorker-refactored-AzureOpenAI/sidekick.py. -/
structure State where
  messages : List Message
  success_criteria : String
  feedback_on_work : Option String
  success_criteria_met : Bool
  user_input_needed : Bool
deriving DecidableEq, Repr

/-- Field names of the State TypedDict, in declaration order. -/
def stateFields : List String :=
  ["messages", "success_criteria", "feedback_on_work",
   "success_criteria_met", "user_input_needed"]

/-- Sidekick.route_based_on_evaluation of the Azure variant. -/
def route_based_on_evaluation (state : State) : String :=
  if state.success_criteria_met || state.user_input_needed then "END"
  else "worker"

/-- Node names registered by Sidekick.build_graph via add_node. -/
def graphNodes : List String :=
  ["worker", "tools", "evaluator"]

/-- Source nodes of the add_conditional_edges calls in Sidekick.build_graph. -/
def graphConditionalEdges : List String :=
  ["worker", "evaluator"]

/-- Keys of the dict returned by each node function. -/
def nodeUpdateKeys : List (String × List String) :=
  [("worker", ["messages"]),
   ("tools", ["messages"]),
   ("evaluator", ["feedback_on_work", "success_criteria_met",
                  "user_input_needed"])]

end SidekickAzure

namespace SidekickAdriana

/-- Node names registered by build_graph of the
adriana_sidekick_eventplanner variant. -/
def graphNodes : List String :=
  ["intake", "worker", "tools", "evaluator"]

/-- Source nodes of the add_conditional_edges calls of the adriana variant. -/
def graphConditionalEdges : List String :=
  ["worker", "evaluator", "intake"]

end SidekickAdriana

/-- The workflow-state shape named by the specification: message
history, success-criteria string, feedback string, and the two
booleans criteria-met and input-needed (stated with the field names
the code uses for these five components). -/
def specWorkflowStateFields : List String :=
  ["messages", "success_criteria", "feedback_on_work",
   "success_criteria_met", "user_input_needed"]

/-! ## Worker nodes of the sidekick variants

The worker builds a system message from the success criteria (and the
evaluator feedback on a retry), installs it into the message history
(overwriting the first SystemMessage if one exists, else prepending),
and invokes the worker LLM on the resulting list.  The embedding
returns the message list handed to the LLM; a runtime error is an
Except.error carrying the Python exception text.  The long prompt
literals are reproduced sentence for sentence; the surrounding
indentation whitespace of the Python triple-quoted literals is not
replicated character for character since no claim depends on it. -/

/-- Replace the content of the first system message in the list
(the Python loop mutates the first SystemMessage found and stops). -/
def replaceFirstSystem (sys : String) : List Message → List Message
  | [] => []
  | m :: rest =>
    if m.role == Role.system then Message.mk Role.system sys m.tool_calls :: rest
    else m :: replaceFirstSystem sys rest

/-- Install the system message: overwrite the first SystemMessage if
present, otherwise prepend a new one. -/
def installSystem (sys : String) (ms : List Message) : List Message :=
  if ms.any (fun m => m.role == Role.system) then replaceFirstSystem sys ms
  else Message.mk Role.system sys [] :: ms

namespace SidekickVinamra

/-- Base worker system message of the vinamra variant, with the
current date/time and the success criteria interpolated. -/
def workerSystemBase (now success_criteria : String) : String :=
  "You are a highly capable AI assistant with access to many tools.\n" ++
  "Your goal is to help the user complete their task successfully.\n\n" ++
  "CURRENT DATE/TIME: " ++ now ++ "\n\n" ++
  "SUCCESS CRITERIA:\n" ++ success_criteria ++ "\n\n" ++
  "IMPORTANT GUIDELINES:\n" ++
  "1. If information is missing or unclear, ask a specific clarification question\n" ++
  "2. Use tools proactively to gather information\n" ++
  "3. When using Python REPL, always use print() to see output\n" ++
  "4. For web searches, try multiple tools if one doesn\x27t give good results\n" ++
  "5. Be thorough but concise in your responses\n\n" ++
  "AVAILABLE TOOLS:\n" ++
  "- Web browsing (Playwright)\n" ++
  "- Search (Google, Tavily)\n" ++
  "- Research (Wikipedia)\n" ++
  "- Code execution (Python REPL)\n" ++
  "- File operations (read/write in sandbox/)\n" ++
  "- Notifications (push alerts)\n" ++
  "- LLM tools (summarization, translation)\n"

/-- Sidekick.worker of the vinamra variant.  When feedback_on_work is
truthy the source executes the augmented assignment
  ystem_message += "...",
but no name ystem_message is in scope (a typo for system_message), so
the Python interpreter raises NameError before any message is built:
that path is embedded as an Except.error carrying the exception text.
Otherwise the system message is installed and the LLM is invoked on
the resulting message list, which the embedding returns. -/
def worker (now : String) (state : State) : Except String (List Message) :=
  let system_message := workerSystemBase now state.success_criteria
  if truthyStr state.feedback_on_work then
    Except.error "NameError: name \x27ystem_message\x27 is not defined"
  else
    Except.ok (installSystem system_message state.messages)

end SidekickVinamra

namespace SidekickAzure

/-- Base worker system message of the Azure variant. -/
def workerSystemBase (now success_criteria : String) : String :=
  "You are a helpful assistant that can use tools to complete tasks.\n" ++
  "You keep working on a task until either you have a question or clarification for the user, or the success criteria is met.\n" ++
  "You have many tools to help you, including tools to:\n" ++
  "- Browse the internet and retrieve web pages\n" ++
  "- Run Python code (include print() to see output)\n" ++
  "- Read and write files\n" ++
  "- Search Wikipedia for information\n" ++
  "- Send push notifications\n\n" ++
  "The current date and time is " ++ now ++ "\n\n" ++
  "Success Criteria:\n" ++ success_criteria ++ "\n\n" ++
  "You should reply either with:\n" ++
  "1. A question for the user (if you need clarification)\n" ++
  "2. Your final response (if the task is complete)\n\n" ++
  "Format questions clearly:\n" ++
  "Question: [Your question here]\n\n" ++
  "If complete, just provide the final answer without asking questions.\n"

/-- Feedback block appended to the system message on a retry. -/
def feedbackSuffix (feedback : String) : String :=
  "\nPrevious Attempt Feedback:\n" ++
  "Your previous response was rejected. Here\x27s why:\n" ++
  feedback ++ "\n\n" ++
  "Please try again with this feedback in mind. Ensure the success criteria is met.\n"

/-- Sidekick.worker of the Azure variant: appends the feedback block
to the system message when feedback_on_work is truthy, installs the
system message and invokes the LLM on the resulting message list. -/
def worker (now : String) (state : State) : Except String (List Message) :=
  let base := workerSystemBase now state.success_criteria
  let system_message :=
    if truthyStr state.feedback_on_work then
      base ++ feedbackSuffix (state.feedback_on_work.getD "")
    else base
  Except.ok (installSystem system_message state.messages)

end SidekickAzure

/-! ## Deep research orchestrator

Embedding of 2_openai/community_contributions/deep_research_vinamra.
The agent SDK calls (planner, per-search, writer, email agents) and
the clock are oracles collected in an Env; ResearchManager.run is a
Python async generator and is embedded as the list of events it
produces: each yielded string, plus a step marker at the point where
each awaited pipeline stage begins. -/

namespace DeepResearch

/-- WebSearchItem of planner_agent.py: a (reason, query) pair. -/
structure WebSearchItem where
  reason : String
  query : String
deriving DecidableEq, Repr

/-- WebSearchPlan of planner_agent.py: the searches field is a plain
list of WebSearchItem; the pydantic Field carries only a description,
no length constraint. -/
structure WebSearchPlan where
  searches : List WebSearchItem
deriving DecidableEq, Repr

/-- Number of searches the planner instructions ask for. -/
def HOW_MANY_SEARCHES : Nat := 5

/-- ReportData of writer_agent.py. -/
structure ReportData where
  short_summary : String
  markdown_report : String
  follow_up_questions : List String
deriving DecidableEq, Repr

/-- Pipeline stages awaited by ResearchManager.run. -/
inductive Step where
  | plan
  | search
  | write
  | email
deriving DecidableEq, Repr

/-- An event of the run generator: a yielded string, or the start of
an awaited pipeline stage. -/
inductive Event where
  | yieldText (s : String)
  | step (s : Step)
deriving DecidableEq, Repr

/-- Oracle outcomes of the external calls made during one invocation
of ResearchManager.run: the rate-limiter verdict, the generated trace
id, the planner outcome (exception text or plan), the outcome of each
search agent call in completion order, and the writer outcome.
send_email catches its own exceptions and never raises, so it needs
no outcome. -/
structure Env where
  rateOk : Bool
  rateMsg : String
  trace_id : String
  planOutcome : Except String WebSearchPlan
  searchOutcomes : List (Except String String)
  writeOutcome : Except String ReportData

/-- ResearchManager.search: returns the search agent final output, or
None when the call raised (the exception is caught and logged). -/
def search (outcome : Except String String) : Option String :=
  match outcome with
  | Except.ok s => some s
  | Except.error _ => none

/-- ResearchManager.perform_searches: one search task per planned
item; None results are filtered out in completion order. -/
def perform_searches (env : Env) : List String :=
  (env.searchOutcomes.map search).filterMap id

/-- The two strings yielded by the broad except handler at the bottom
of ResearchManager.run when an exception reaches it. -/
def errorTail (e : String) : List Event :=
  [Event.yieldText ("\n\n❌ **Error**: Research process failed - " ++ e),
   Event.yieldText "\n\nPlease try again with a different query or contact support if the issue persists."]

/-- Support message of the except handler (its second yield). -/
def supportMsg : String :=
  "\n\nPlease try again with a different query or contact support if the issue persists."

/-- ResearchManager.run as the list of events it produces.
plan_searches and write_report wrap an exception e of the inner agent
call into RuntimeError("Failed to plan searches: " / "Failed to write
report: " + e) and re-raise, which the top-level except catches. -/
def run (env : Env) : List Event :=
  if env.rateOk = false then
    [Event.yieldText ("⏱️ **Rate Limit**: " ++ env.rateMsg)]
  else
    Event.yieldText "🔍 **Starting Deep Research**\n" ::
    Event.yieldText ("📊 View trace: https://platform.openai.com/traces/trace?trace_id=" ++ env.trace_id ++ "\n\n") ::
    Event.yieldText "**Step 1/4**: Planning searches...\n" ::
    Event.step Step.plan ::
    match env.planOutcome with
    | Except.error e => errorTail ("Failed to plan searches: " ++ e)
    | Except.ok plan =>
      Event.yieldText ("✅ Planned " ++ toString plan.searches.length ++ " searches\n\n") ::
      Event.yieldText "**Step 2/4**: Performing web searches...\n" ::
      Event.step Step.search ::
      let search_results := perform_searches env
      if search_results.isEmpty then
        [Event.yieldText "❌ **Error**: No search results obtained"]
      else
        Event.yieldText ("✅ Completed " ++ toString search_results.length ++ " searches\n\n") ::
        Event.yieldText "**Step 3/4**: Synthesizing research and writing report...\n" ::
        Event.step Step.write ::
        match env.writeOutcome with
        | Except.error e => errorTail ("Failed to write report: " ++ e)
        | Except.ok report =>
          Event.yieldText "✅ Report completed\n\n" ::
          Event.yieldText "**Step 4/4**: Sending email...\n" ::
          Event.step Step.email ::
          Event.yieldText "✅ Email sent\n\n" ::
          Event.yieldText "---\n" ::
          Event.yieldText "# 📝 Research Complete\n\n" ::
          [Event.yieldText report.markdown_report]

/-- The pipeline stages of a trace, in execution order. -/
def stepsOf (t : List Event) : List Step :=
  t.filterMap (fun e => match e with
    | Event.step s => some s
    | Event.yieldText _ => none)

def isYield : Event → Bool
  | Event.yieldText _ => true
  | Event.step _ => false

def isStep : Event → Bool
  | Event.yieldText _ => false
  | Event.step _ => true

/-- Every step event of the trace is immediately preceded by a
yielded string. -/
def stepsPrecededByYield (t : List Event) : Bool :=
  (match t with
   | Event.step _ :: _ => false
   | _ => true) &&
  (t.zip t.tail).all (fun p => !(isStep p.2) || isYield p.1)

end DeepResearch

/-! ## Planner schema of research_agent_with_updates -/

namespace ResearchAgentWU

/-- WebSearchItem of research_agent_with_updates/tool/plan.py. -/
structure WebSearchItem where
  reason : String
  query : String
deriving DecidableEq, Repr

/-- WebSearchPlan of research_agent_with_updates/tool/plan.py: again a
plain list field with only a description. -/
structure WebSearchPlan where
  searches : List WebSearchItem
deriving DecidableEq, Repr

/-- Number of search terms the instructions ask for. -/
def HOW_MANY_SEARCHES : Nat := 10

end ResearchAgentWU

/-! ## Rate limit guard

guardrails.py of deep_research_vinamra.  time.time() returns a float;
only subtraction and comparison against 3600 are performed on
timestamps, so they are modelled as integers supplied by the caller
as the current clock reading. -/

namespace DeepResearch

/-- RateLimitGuard state: the hourly cap and the recorded query
timestamps (the constructor starts with an empty list). -/
structure RateLimitGuard where
  max_queries_per_hour : Nat
  query_timestamps : List Int
deriving DecidableEq, Repr

/-- Message returned when the rate limit is exceeded. -/
def rateLimitMessage (g : RateLimitGuard) : String :=
  "Rate limit exceeded. Maximum " ++ toString g.max_queries_per_hour ++ " queries per hour."

/-- RateLimitGuard.can_process_query: drop timestamps older than 3600
seconds, refuse when at least max_queries_per_hour remain, otherwise
record the current time and allow.  Returns the (allowed, message)
pair together with the updated guard (the Python method mutates
self.query_timestamps). -/
def RateLimitGuard.can_process_query (g : RateLimitGuard) (current_time : Int) :
    (Bool × Option String) × RateLimitGuard :=
  let kept := g.query_timestamps.filter (fun ts => current_time - ts < 3600)
  if g.max_queries_per_hour ≤ kept.length then
    ((false, some (rateLimitMessage g)),
     RateLimitGuard.mk g.max_queries_per_hour kept)
  else
    ((true, none),
     RateLimitGuard.mk g.max_queries_per_hour (kept ++ [current_time]))

end DeepResearch

/-! ## Expense tracker MCP tools

6_mcp/community_contributions/expense_tracker_mcp_vinamra/expense_tracker.py.
The SQLite expenses table is modelled as a list of rows; the REAL
amount column only ever stores and copies values here, so it is
modelled as an integer-valued field.  Tool results are the returned
dicts, modelled by a record of the keys the tools use. -/

namespace ExpenseTracker

/-- A row of the expenses table. -/
structure Expense where
  id : Nat
  date : String
  amount : Int
  category : String
  subcategory : String
  note : String
deriving DecidableEq, Repr

/-- Result dict of a tool call: status plus the optional id, message
and updated_fields keys. -/
structure ToolResult where
  status : String
  rid : Option Nat
  message : Option String
  updated_fields : Option Nat
deriving DecidableEq, Repr

/-- The dynamic SET clauses built by edit_expense, in source order;
one clause per supplied field. -/
def updatesClauses (date : Option String) (amount : Option Int)
    (category : Option String) (subcategory : Option String)
    (note : Option String) : List String :=
  (if date.isSome then ["date = ?"] else []) ++
  (if amount.isSome then ["amount = ?"] else []) ++
  (if category.isSome then ["category = ?"] else []) ++
  (if subcategory.isSome then ["subcategory = ?"] else []) ++
  (if note.isSome then ["note = ?"] else [])

/-- Effect of the UPDATE statement on one matching row: each supplied
field is overwritten, every other field keeps its value. -/
def applyUpdates (date : Option String) (amount : Option Int)
    (category : Option String) (subcategory : Option String)
    (note : Option String) (r : Expense) : Expense :=
  Expense.mk r.id (date.getD r.date) (amount.getD r.amount)
    (category.getD r.category) (subcategory.getD r.subcategory)
    (note.getD r.note)

/-- Not-found error dict shared by edit_expense and delete_expense. -/
def notFound (expense_id : Nat) : ToolResult :=
  ToolResult.mk "error" none
    (some ("Expense " ++ toString expense_id ++ " not found")) none

/-- edit_expense: error if no row has the id, error if no field was
supplied, otherwise update exactly the supplied fields of the
matching rows and report how many SET clauses were applied.  Returns
the updated table with the result dict. -/
def edit_expense (db : List Expense) (expense_id : Nat)
    (date : Option String) (amount : Option Int) (category : Option String)
    (subcategory : Option String) (note : Option String) :
    List Expense × ToolResult :=
  if db.any (fun r => r.id == expense_id) = false then
    (db, notFound expense_id)
  else
    let updates := updatesClauses date amount category subcategory note
    if updates.isEmpty then
      (db, ToolResult.mk "error" none (some "No fields provided to update") none)
    else
      (db.map (fun r =>
          if r.id == expense_id then
            applyUpdates date amount category subcategory note r
          else r),
       ToolResult.mk "ok" (some expense_id) none (some updates.length))

/-- delete_expense: error if no row has the id, otherwise delete the
matching rows. -/
def delete_expense (db : List Expense) (expense_id : Nat) :
    List Expense × ToolResult :=
  if db.any (fun r => r.id == expense_id) = false then
    (db, notFound expense_id)
  else
    (db.filter (fun r => !(r.id == expense_id)),
     ToolResult.mk "ok" (some expense_id) (some "Expense deleted") none)

end ExpenseTracker

/-! ## Sample environments for concrete evaluation -/

namespace DeepResearch

/-- A one-item plan used for concrete evaluation. -/
def samplePlan : WebSearchPlan :=
  WebSearchPlan.mk [WebSearchItem.mk "background" "lean theorem proving"]

/-- A report value used for concrete evaluation. -/
def sampleReport : ReportData :=
  ReportData.mk "summary" "# Report body\n" []

/-- Every external call succeeds. -/
def envAllOk : Env :=
  Env.mk true "" "trace123" (Except.ok samplePlan)
    [Except.ok "found page"] (Except.ok sampleReport)

/-- The planner agent call raises. -/
def envPlanFail : Env :=
  Env.mk true "" "trace123" (Except.error "boom")
    [] (Except.ok sampleReport)

/-- The writer agent call raises. -/
def envWriteFail : Env :=
  Env.mk true "" "trace123" (Except.ok samplePlan)
    [Except.ok "found page"] (Except.error "disk full")

/-- The planner returns an empty plan (a value its schema admits), so
no search task is created and no call raises. -/
def envEmptyPlan : Env :=
  Env.mk true "" "trace123" (Except.ok (WebSearchPlan.mk []))
    [] (Except.ok sampleReport)

end DeepResearch

/-- A one-row expenses table for concrete evaluation. -/
def ExpenseTracker.sampleDb : List ExpenseTracker.Expense :=
  [ExpenseTracker.Expense.mk 1 "2025-01-01" 100 "food" "" ""]

/-- A guard with two recorded timestamps for concrete evaluation. -/
def DeepResearch.sampleGuard : DeepResearch.RateLimitGuard :=
  DeepResearch.RateLimitGuard.mk 10 [100, 200]

/-- Guard state after one call at the given time (ResearchManager
keeps the guard across calls and each call mutates it). -/
def DeepResearch.stepGuard (g : DeepResearch.RateLimitGuard) (t : Int) :
    DeepResearch.RateLimitGuard :=
  (g.can_process_query t).2

/-- Guard state after a sequence of calls starting from a freshly
constructed guard (whose timestamp list is empty). -/
def DeepResearch.runGuard (maxq : Nat) (times : List Int) :
    DeepResearch.RateLimitGuard :=
  times.foldl DeepResearch.stepGuard (DeepResearch.RateLimitGuard.mk maxq [])

/-! ## Theorems for the claims -/

/-- C1: in both sidekick variants that define it, the router after the
evaluator node returns the terminal state END if and only if the
state has success_criteria_met or user_input_needed set, and
otherwise routes back to the worker node, for every state. -/
theorem c1_route_terminal_iff
    (s : SidekickVinamra.State) (t : SidekickAzure.State) :
    (SidekickVinamra.route_based_on_evaluation s = "END" ↔
      (s.success_criteria_met = true ∨ s.user_input_needed = true)) ∧
    (SidekickVinamra.route_based_on_evaluation s = "worker" ↔
      ¬(s.success_criteria_met = true ∨ s.user_input_needed = true)) ∧
    (SidekickAzure.route_based_on_evaluation t = "END" ↔
      (t.success_criteria_met = true ∨ t.user_input_needed = true)) ∧
    (SidekickAzure.route_based_on_evaluation t = "worker" ↔
      ¬(t.success_criteria_met = true ∨ t.user_input_needed = true)) := by
  refine ⟨?_, ?_, ?_, ?_⟩ <;>
    cases hs : s.success_criteria_met <;>
    cases hu : s.user_input_needed <;>
    cases ht : t.success_criteria_met <;>
    cases hv : t.user_input_needed <;>
    simp [SidekickVinamra.route_based_on_evaluation,
          SidekickAzure.route_based_on_evaluation, hs, hu, ht, hv]

/-- C2 counterexample: the vinamra sidekick graph registers three
conditional routing points (worker, clarification_check, evaluator),
so the bound of at most 2 conditional edges fails on it. -/
theorem c2_counterexample :
    ¬ (SidekickVinamra.graphNodes.length ≤ 5 ∧
       SidekickVinamra.graphConditionalEdges.length ≤ 2) := by
  decide

/-- C2 (amended): every workflow graph built by the sidekick variants
has at most 5 nodes and at most 3 conditional edges, counting the
add_node and add_conditional_edges calls in build_graph. -/
theorem c2_graph_size_bounds :
    (SidekickVinamra.graphNodes.length ≤ 5 ∧
     SidekickVinamra.graphConditionalEdges.length ≤ 3) ∧
    (SidekickAzure.graphNodes.length ≤ 5 ∧
     SidekickAzure.graphConditionalEdges.length ≤ 3) ∧
    (SidekickAdriana.graphNodes.length ≤ 5 ∧
     SidekickAdriana.graphConditionalEdges.length ≤ 3) := by
  decide

/-- C5: on a retry state (feedback_on_work set, success_criteria_met
false) the vinamra worker node raises NameError instead of completing,
because the feedback branch assigns to the misspelt name
ystem_message; the Azure variant completes the same retry and embeds
the stored feedback in the system message it sends to the worker LLM. -/
theorem c5_retry_worker_evaluation :
    (SidekickVinamra.worker "2025-01-01 00:00:00"
      (SidekickVinamra.State.mk [Message.mk Role.human "task" []] "criteria"
        (some "Response incomplete") false false none [])
      = Except.error "NameError: name \x27ystem_message\x27 is not defined") ∧
    (SidekickAzure.worker "2025-01-01 00:00:00"
      (SidekickAzure.State.mk [Message.mk Role.human "task" []] "criteria"
        (some "Response incomplete") false false)
      = Except.ok
          [Message.mk Role.system
            (SidekickAzure.workerSystemBase "2025-01-01 00:00:00" "criteria" ++
             SidekickAzure.feedbackSuffix "Response incomplete") [],
           Message.mk Role.human "task" []]) := by
  exact ⟨rfl, rfl⟩

/-- C6 counterexample: neither WebSearchPlan type constrains the
length of its searches list, so the type does not guarantee the fixed
counts 5 and 10; the empty plan is a value of both types. -/
theorem c6_counterexample :
    ¬ ((∀ p : DeepResearch.WebSearchPlan,
          p.searches.length = DeepResearch.HOW_MANY_SEARCHES) ∧
       (∀ q : ResearchAgentWU.WebSearchPlan,
          q.searches.length = ResearchAgentWU.HOW_MANY_SEARCHES)) := by
  intro h
  have h1 := h.1 (DeepResearch.WebSearchPlan.mk [])
  simp [DeepResearch.HOW_MANY_SEARCHES] at h1

/-- C6 (amended): a search plan is an ordered list of (reason, query)
pairs; the planners request the fixed counts 5 (deep_research) and 10
(research_agent_with_updates) through their instructions, but the
WebSearchPlan types impose no length constraint: for every n both
schemas admit a plan with exactly n searches. -/
theorem c6_plan_shape (n : Nat) :
    DeepResearch.HOW_MANY_SEARCHES = 5 ∧
    ResearchAgentWU.HOW_MANY_SEARCHES = 10 ∧
    (∃ p : DeepResearch.WebSearchPlan, p.searches.length = n) ∧
    (∃ q : ResearchAgentWU.WebSearchPlan, q.searches.length = n) := by
  refine ⟨rfl, rfl,
    ⟨DeepResearch.WebSearchPlan.mk
      (List.replicate n (DeepResearch.WebSearchItem.mk "reason" "query")), ?_⟩,
    ⟨ResearchAgentWU.WebSearchPlan.mk
      (List.replicate n (ResearchAgentWU.WebSearchItem.mk "reason" "query")), ?_⟩⟩ <;>
  simp

/-- C7 counterexample: the vinamra State carries two fields beyond the
five-field shape named by the spec (clarification_question and
guardrails_issues), so the sidekick states do not all consist of
exactly the five spec fields. -/
theorem c7_counterexample :
    ¬ (SidekickVinamra.stateFields = specWorkflowStateFields ∧
       SidekickAzure.stateFields = specWorkflowStateFields) ∧
    "clarification_question" ∈ SidekickVinamra.stateFields ∧
    "clarification_question" ∉ specWorkflowStateFields := by
  decide

/-- C7 (amended): the Azure sidekick state consists of exactly the
five spec fields; the vinamra state contains those five plus
clarification_question and guardrails_issues; and in both variants
every node update writes only fields of its own state. -/
theorem c7_state_shape :
    SidekickAzure.stateFields = specWorkflowStateFields ∧
    specWorkflowStateFields ⊆ SidekickVinamra.stateFields ∧
    SidekickVinamra.stateFields =
      specWorkflowStateFields ++ ["clarification_question", "guardrails_issues"] ∧
    (∀ nu ∈ SidekickAzure.nodeUpdateKeys, nu.2 ⊆ SidekickAzure.stateFields) ∧
    (∀ nu ∈ SidekickVinamra.nodeUpdateKeys, nu.2 ⊆ SidekickVinamra.stateFields) := by
  decide

/-- C3 counterexample: when the planner returns an empty plan, run is
not rate-limited and completes with no exception raised anywhere (no
search task exists to fail, the except handler never fires: its
support message is never yielded), yet the write and email steps
never execute and the last yield is the no-results error, not the
report markdown. -/
theorem c3_counterexample :
    DeepResearch.envEmptyPlan.rateOk = true ∧
    DeepResearch.envEmptyPlan.searchOutcomes.length = 0 ∧
    DeepResearch.Event.yieldText DeepResearch.supportMsg ∉
      DeepResearch.run DeepResearch.envEmptyPlan ∧
    DeepResearch.stepsOf (DeepResearch.run DeepResearch.envEmptyPlan) ≠
      [DeepResearch.Step.plan, DeepResearch.Step.search,
       DeepResearch.Step.write, DeepResearch.Step.email] ∧
    (DeepResearch.run DeepResearch.envEmptyPlan).getLast? ≠
      some (DeepResearch.Event.yieldText
        DeepResearch.sampleReport.markdown_report) := by
  decide

/-- C3 (amended): for every invocation of ResearchManager.run that is
not rate-limited, completes without an exception, and obtains at
least one successful search result, the orchestrator performs plan,
search, write, email in exactly that order, every step is immediately
preceded by a yielded status string, and the final yield is the
report markdown. -/
theorem c3_pipeline_order (env : DeepResearch.Env)
    (p : DeepResearch.WebSearchPlan) (r : DeepResearch.ReportData)
    (hrate : env.rateOk = true)
    (hplan : env.planOutcome = Except.ok p)
    (hres : DeepResearch.perform_searches env ≠ [])
    (hwrite : env.writeOutcome = Except.ok r) :
    DeepResearch.stepsOf (DeepResearch.run env) =
      [DeepResearch.Step.plan, DeepResearch.Step.search,
       DeepResearch.Step.write, DeepResearch.Step.email] ∧
    DeepResearch.stepsPrecededByYield (DeepResearch.run env) = true ∧
    (DeepResearch.run env).getLast? =
      some (DeepResearch.Event.yieldText r.markdown_report) := by
  have hne : (DeepResearch.perform_searches env).isEmpty = false := by
    cases hpe : DeepResearch.perform_searches env with
    | nil => exact absurd hpe hres
    | cons a l => rfl
  refine ⟨?_, ?_, ?_⟩ <;>
    simp [DeepResearch.run, hrate, hplan, hwrite, hne,
          DeepResearch.stepsOf, DeepResearch.stepsPrecededByYield,
          DeepResearch.isYield, DeepResearch.isStep, List.getLast?]

/-- C3 witness: the amended theorem applied to the all-successful
sample environment. -/
theorem c3_pipeline_order_witness :
    DeepResearch.stepsOf (DeepResearch.run DeepResearch.envAllOk) =
      [DeepResearch.Step.plan, DeepResearch.Step.search,
       DeepResearch.Step.write, DeepResearch.Step.email] ∧
    DeepResearch.stepsPrecededByYield (DeepResearch.run DeepResearch.envAllOk) = true ∧
    (DeepResearch.run DeepResearch.envAllOk).getLast? =
      some (DeepResearch.Event.yieldText
        DeepResearch.sampleReport.markdown_report) :=
  c3_pipeline_order DeepResearch.envAllOk DeepResearch.samplePlan
    DeepResearch.sampleReport rfl rfl (by decide) rfl

/-- C4: every exception raised during a pipeline stage of
ResearchManager.run is caught by the generator, which yields the
user-facing error string and terminates (its last event is the
support-message yield, never a propagated exception); a failed single
search is converted to None by search, the results of
perform_searches are exactly the successful outcomes, and the result
list never has more entries than the planned searches. -/
theorem c4_error_handling (env : DeepResearch.Env) :
    (∀ e, env.rateOk = true → env.planOutcome = Except.error e →
      DeepResearch.Event.yieldText
          ("\n\n❌ **Error**: Research process failed - " ++
            ("Failed to plan searches: " ++ e))
        ∈ DeepResearch.run env ∧
      (DeepResearch.run env).getLast? =
        some (DeepResearch.Event.yieldText DeepResearch.supportMsg)) ∧
    (∀ p e, env.rateOk = true → env.planOutcome = Except.ok p →
      DeepResearch.perform_searches env ≠ [] →
      env.writeOutcome = Except.error e →
      DeepResearch.Event.yieldText
          ("\n\n❌ **Error**: Research process failed - " ++
            ("Failed to write report: " ++ e))
        ∈ DeepResearch.run env ∧
      (DeepResearch.run env).getLast? =
        some (DeepResearch.Event.yieldText DeepResearch.supportMsg)) ∧
    (∀ msg, DeepResearch.search (Except.error msg) = none) ∧
    (∀ s, s ∈ DeepResearch.perform_searches env ↔
      Except.ok s ∈ env.searchOutcomes) ∧
    (DeepResearch.perform_searches env).length ≤ env.searchOutcomes.length := by
  refine ⟨?_, ?_, fun msg => rfl, ?_, ?_⟩
  · intro e hrate hplan
    constructor <;>
      simp [DeepResearch.run, hrate, hplan, DeepResearch.errorTail,
            DeepResearch.supportMsg, List.getLast?]
  · intro p e hrate hplan hres hwrite
    have hne : (DeepResearch.perform_searches env).isEmpty = false := by
      cases hpe : DeepResearch.perform_searches env with
      | nil => exact absurd hpe hres
      | cons a l => rfl
    constructor <;>
      simp [DeepResearch.run, hrate, hplan, hwrite, hne,
            DeepResearch.errorTail, DeepResearch.supportMsg, List.getLast?]
  · intro s
    unfold DeepResearch.perform_searches
    simp only [List.filterMap_map, List.mem_filterMap]
    constructor
    · rintro ⟨o, ho, hso⟩
      cases o with
      | ok a =>
        simp [Function.comp, DeepResearch.search] at hso
        exact hso ▸ ho
      | error msg => simp [Function.comp, DeepResearch.search] at hso
    · intro h
      exact ⟨Except.ok s, h, rfl⟩
  · unfold DeepResearch.perform_searches
    calc ((env.searchOutcomes.map DeepResearch.search).filterMap id).length
        ≤ (env.searchOutcomes.map DeepResearch.search).length :=
          List.length_filterMap_le _ _
      _ = env.searchOutcomes.length := List.length_map _ _

/-- C4 witness: the theorem applied at the plan-failure and
write-failure sample environments. -/
theorem c4_error_handling_witness :
    ((DeepResearch.run DeepResearch.envPlanFail).getLast? =
      some (DeepResearch.Event.yieldText DeepResearch.supportMsg)) ∧
    ((DeepResearch.run DeepResearch.envWriteFail).getLast? =
      some (DeepResearch.Event.yieldText DeepResearch.supportMsg)) :=
  ⟨((c4_error_handling DeepResearch.envPlanFail).1 "boom" rfl rfl).2,
   ((c4_error_handling DeepResearch.envWriteFail).2.1 DeepResearch.samplePlan
      "disk full" rfl rfl (by decide) rfl).2⟩

/-- Length of the dynamic SET-clause list equals the number of
supplied fields. -/
theorem ExpenseTracker.updatesClauses_length (d : Option String) (a : Option Int)
    (c : Option String) (s : Option String) (n : Option String) :
    (ExpenseTracker.updatesClauses d a c s n).length =
      (if d.isSome then 1 else 0) + (if a.isSome then 1 else 0) +
      (if c.isSome then 1 else 0) + (if s.isSome then 1 else 0) +
      (if n.isSome then 1 else 0) := by
  cases d <;> cases a <;> cases c <;> cases s <;> cases n <;> rfl

/-- C8: for an existing expense row and a call supplying a non-empty
subset of the editable fields, edit_expense reports ok with
updated_fields equal to the number of supplied fields, keeps the
table length, leaves every row with a different id untouched at its
position, and rewrites each row with the given id so that exactly the
supplied fields take the new values and every unsupplied field keeps
its previous value. -/
theorem c8_edit_expense_frame (db : List ExpenseTracker.Expense) (eid : Nat)
    (d : Option String) (a : Option Int) (c : Option String)
    (s : Option String) (n : Option String)
    (hex : db.any (fun r => r.id == eid) = true)
    (hsup : ExpenseTracker.updatesClauses d a c s n ≠ []) :
    (ExpenseTracker.edit_expense db eid d a c s n).2 =
      ExpenseTracker.ToolResult.mk "ok" (some eid) none
        (some ((if d.isSome then 1 else 0) + (if a.isSome then 1 else 0) +
               (if c.isSome then 1 else 0) + (if s.isSome then 1 else 0) +
               (if n.isSome then 1 else 0))) ∧
    (ExpenseTracker.edit_expense db eid d a c s n).1.length = db.length ∧
    (∀ (i : Nat) (r : ExpenseTracker.Expense), db[i]? = some r → r.id ≠ eid →
      (ExpenseTracker.edit_expense db eid d a c s n).1[i]? = some r) ∧
    (∀ (i : Nat) (r : ExpenseTracker.Expense), db[i]? = some r → r.id = eid →
      ∃ r2, (ExpenseTracker.edit_expense db eid d a c s n).1[i]? = some r2 ∧
        r2.id = r.id ∧ r2.date = d.getD r.date ∧ r2.amount = a.getD r.amount ∧
        r2.category = c.getD r.category ∧
        r2.subcategory = s.getD r.subcategory ∧ r2.note = n.getD r.note) := by
  have hne : (ExpenseTracker.updatesClauses d a c s n).isEmpty = false := by
    cases hpe : ExpenseTracker.updatesClauses d a c s n with
    | nil => exact absurd hpe hsup
    | cons x l => rfl
  have hout : ExpenseTracker.edit_expense db eid d a c s n =
      (db.map (fun r =>
        if r.id == eid then ExpenseTracker.applyUpdates d a c s n r else r),
       ExpenseTracker.ToolResult.mk "ok" (some eid) none
         (some (ExpenseTracker.updatesClauses d a c s n).length)) := by
    simp [ExpenseTracker.edit_expense, hex, hne]
  refine ⟨?_, ?_, ?_, ?_⟩
  · rw [hout, ← ExpenseTracker.updatesClauses_length d a c s n]
  · rw [hout]; exact List.length_map _ _
  · intro i r hir hneq
    rw [hout]
    simp only [List.getElem?_map, hir, Option.map_some]
    have : (r.id == eid) = false := by
      simp [hneq]
    simp [this]
    exact fun h => absurd h hneq
  · intro i r hir heq
    rw [hout]
    refine ⟨ExpenseTracker.applyUpdates d a c s n r, ?_, rfl, rfl, rfl, rfl, rfl, rfl⟩
    simp only [List.getElem?_map, hir, Option.map_some]
    have : (r.id == eid) = true := by simp [heq]
    simp [this]
    exact fun h => absurd heq h

/-- C8 witness: the theorem applied to the one-row sample table with
only the date field supplied. -/
theorem c8_edit_expense_frame_witness :
    ExpenseTracker.sampleDb.any (fun r => r.id == 1) = true ∧
    ExpenseTracker.updatesClauses (some "2025-02-02") none none none none ≠ [] ∧
    (ExpenseTracker.edit_expense ExpenseTracker.sampleDb 1
      (some "2025-02-02") none none none none).2 =
      ExpenseTracker.ToolResult.mk "ok" (some 1) none (some 1) :=
  ⟨by decide, by decide,
   (c8_edit_expense_frame ExpenseTracker.sampleDb 1
     (some "2025-02-02") none none none none (by decide) (by decide)).1⟩

/-- C9: for an id with no matching row, edit_expense and
delete_expense return status error with the not-found message and
leave the table unchanged; edit_expense with an existing id but no
supplied field returns status error and leaves the table unchanged;
otherwise both tools return status ok. -/
theorem c9_edit_delete_validation (db : List ExpenseTracker.Expense) (eid : Nat)
    (d : Option String) (a : Option Int) (c : Option String)
    (s : Option String) (n : Option String) :
    (db.any (fun r => r.id == eid) = false →
      ExpenseTracker.edit_expense db eid d a c s n =
        (db, ExpenseTracker.notFound eid) ∧
      ExpenseTracker.delete_expense db eid = (db, ExpenseTracker.notFound eid) ∧
      ExpenseTracker.notFound eid =
        ExpenseTracker.ToolResult.mk "error" none
          (some ("Expense " ++ toString eid ++ " not found")) none) ∧
    (db.any (fun r => r.id == eid) = true →
      ExpenseTracker.updatesClauses d a c s n = [] →
      ExpenseTracker.edit_expense db eid d a c s n =
        (db, ExpenseTracker.ToolResult.mk "error" none
          (some "No fields provided to update") none)) ∧
    (db.any (fun r => r.id == eid) = true →
      ExpenseTracker.updatesClauses d a c s n ≠ [] →
      (ExpenseTracker.edit_expense db eid d a c s n).2.status = "ok") ∧
    (db.any (fun r => r.id == eid) = true →
      (ExpenseTracker.delete_expense db eid).2.status = "ok") := by
  refine ⟨?_, ?_, ?_, ?_⟩
  · intro hmiss
    refine ⟨?_, ?_, rfl⟩ <;>
      simp [ExpenseTracker.edit_expense, ExpenseTracker.delete_expense, hmiss]
  · intro hex hempty
    simp [ExpenseTracker.edit_expense, hex, hempty]
  · intro hex hsup
    have hne : (ExpenseTracker.updatesClauses d a c s n).isEmpty = false := by
      cases hpe : ExpenseTracker.updatesClauses d a c s n with
      | nil => exact absurd hpe hsup
      | cons x l => rfl
    simp [ExpenseTracker.edit_expense, hex, hne]
  · intro hex
    simp [ExpenseTracker.delete_expense, hex]

/-- C9 witness: the theorem applied to the sample table at the
missing id 2 and at the existing id 1 with and without supplied
fields. -/
theorem c9_edit_delete_validation_witness :
    (ExpenseTracker.edit_expense ExpenseTracker.sampleDb 2
        (some "2025-02-02") none none none none =
      (ExpenseTracker.sampleDb, ExpenseTracker.notFound 2)) ∧
    (ExpenseTracker.edit_expense ExpenseTracker.sampleDb 1
        none none none none none =
      (ExpenseTracker.sampleDb, ExpenseTracker.ToolResult.mk "error" none
        (some "No fields provided to update") none)) ∧
    (ExpenseTracker.delete_expense ExpenseTracker.sampleDb 1).2.status = "ok" :=
  ⟨((c9_edit_delete_validation ExpenseTracker.sampleDb 2
      (some "2025-02-02") none none none none).1 (by decide)).1,
   (c9_edit_delete_validation ExpenseTracker.sampleDb 1
      none none none none none).2.1 (by decide) (by decide),
   (c9_edit_delete_validation ExpenseTracker.sampleDb 1
      none none none none none).2.2.2 (by decide)⟩

/-- One guard call keeps the cap field and preserves the cap on the
number of stored timestamps. -/
theorem DeepResearch.stepGuard_cap (g : DeepResearch.RateLimitGuard) (t : Int) :
    (DeepResearch.stepGuard g t).max_queries_per_hour = g.max_queries_per_hour ∧
    (g.query_timestamps.length ≤ g.max_queries_per_hour →
      (DeepResearch.stepGuard g t).query_timestamps.length ≤
        g.max_queries_per_hour) := by
  unfold DeepResearch.stepGuard DeepResearch.RateLimitGuard.can_process_query
  by_cases hc : g.max_queries_per_hour ≤
      (g.query_timestamps.filter (fun ts => decide (t - ts < 3600))).length
  · refine ⟨by simp [hc], fun hlen => ?_⟩
    simp only [hc, if_pos]
    exact le_trans (List.length_filter_le _ _) hlen
  · refine ⟨by simp [hc], fun hlen => ?_⟩
    simp only [hc, if_neg, not_false_iff, List.length_append,
      List.length_singleton]
    omega

/-- From a fresh guard, every sequence of calls keeps the cap field
and leaves at most max_queries_per_hour stored timestamps. -/
theorem DeepResearch.runGuard_cap (maxq : Nat) (times : List Int) :
    (DeepResearch.runGuard maxq times).max_queries_per_hour = maxq ∧
    (DeepResearch.runGuard maxq times).query_timestamps.length ≤ maxq := by
  suffices h : ∀ g : DeepResearch.RateLimitGuard,
      g.query_timestamps.length ≤ g.max_queries_per_hour →
      (times.foldl DeepResearch.stepGuard g).max_queries_per_hour =
        g.max_queries_per_hour ∧
      (times.foldl DeepResearch.stepGuard g).query_timestamps.length ≤
        g.max_queries_per_hour by
    have := h (DeepResearch.RateLimitGuard.mk maxq []) (by simp)
    exact ⟨this.1, this.2⟩
  induction times with
  | nil => exact fun g hg => ⟨rfl, hg⟩
  | cons t ts ih =>
    intro g hg
    have h1 := DeepResearch.stepGuard_cap g t
    have h2 := ih (DeepResearch.stepGuard g t) (by rw [h1.1]; exact h1.2 hg)
    refine ⟨?_, ?_⟩
    · rw [List.foldl_cons, h2.1, h1.1]
    · rw [List.foldl_cons]
      exact le_trans h2.2 (le_of_eq h1.1)

/-- C10: can_process_query refuses (returning false with the rate
limit message) exactly when at least max_queries_per_hour recorded
timestamps lie within the last 3600 seconds of the current time, and
otherwise returns true with no message and records the current
timestamp; after any call the stored list holds only timestamps from
the last 3600 seconds, and if the list respected the cap before the
call it still does after. -/
theorem c10_rate_limit_guard (g : DeepResearch.RateLimitGuard) (t : Int) :
    ((g.can_process_query t).1 =
        (false, some (DeepResearch.rateLimitMessage g)) ↔
      g.max_queries_per_hour ≤
        g.query_timestamps.countP (fun ts => t - ts < 3600)) ∧
    (g.query_timestamps.countP (fun ts => t - ts < 3600) <
        g.max_queries_per_hour →
      (g.can_process_query t).1 = (true, none) ∧
      (g.can_process_query t).2.query_timestamps =
        g.query_timestamps.filter (fun ts => t - ts < 3600) ++ [t]) ∧
    (∀ ts ∈ (g.can_process_query t).2.query_timestamps, t - ts < 3600) ∧
    ((g.can_process_query t).2.max_queries_per_hour =
      g.max_queries_per_hour) ∧
    (g.query_timestamps.length ≤ g.max_queries_per_hour →
      (g.can_process_query t).2.query_timestamps.length ≤
        g.max_queries_per_hour) ∧
    (∀ (maxq : Nat) (times : List Int),
      (DeepResearch.runGuard maxq times).query_timestamps.length ≤ maxq) := by
  have hcount : g.query_timestamps.countP (fun ts => decide (t - ts < 3600)) =
      (g.query_timestamps.filter (fun ts => decide (t - ts < 3600))).length :=
    List.countP_eq_length_filter _ _
  by_cases hc : g.max_queries_per_hour ≤
      (g.query_timestamps.filter (fun ts => decide (t - ts < 3600))).length
  · refine ⟨?_, ?_, ?_, ?_, ?_, fun maxq times => (DeepResearch.runGuard_cap maxq times).2⟩
    · simp [DeepResearch.RateLimitGuard.can_process_query, hc, hcount]
    · intro hlt
      rw [hcount] at hlt
      exact absurd hc (not_le.mpr hlt)
    · intro ts hts
      simp [DeepResearch.RateLimitGuard.can_process_query, hc] at hts
      exact hts.2
    · simp [DeepResearch.RateLimitGuard.can_process_query, hc]
    · intro hlen
      simp only [DeepResearch.RateLimitGuard.can_process_query, hc, if_pos]
      exact le_trans (List.length_filter_le _ _) hlen
  · refine ⟨?_, ?_, ?_, ?_, ?_, fun maxq times => (DeepResearch.runGuard_cap maxq times).2⟩
    · simp [DeepResearch.RateLimitGuard.can_process_query, hc, hcount]
    · intro hlt
      simp [DeepResearch.RateLimitGuard.can_process_query, hc]
    · intro ts hts
      simp [DeepResearch.RateLimitGuard.can_process_query, hc,
            List.mem_append] at hts
      cases hts with
      | inl h => exact h.2
      | inr h => simp [h]
    · simp [DeepResearch.RateLimitGuard.can_process_query, hc]
    · intro hlen
      simp only [DeepResearch.RateLimitGuard.can_process_query, hc, if_neg,
        not_false_iff, List.length_append, List.length_singleton]
      omega

/-- C10 witness: the theorem applied to the sample guard (cap 10, two
recorded timestamps) at time 300. -/
theorem c10_rate_limit_guard_witness :
    (DeepResearch.sampleGuard.can_process_query 300).1 = (true, none) ∧
    (DeepResearch.sampleGuard.can_process_query 300).2.query_timestamps =
      DeepResearch.sampleGuard.query_timestamps.filter
        (fun ts => (300 : Int) - ts < 3600) ++ [300] ∧
    (DeepResearch.sampleGuard.can_process_query 300).2.query_timestamps.length ≤ 10 :=
  ⟨((c10_rate_limit_guard DeepResearch.sampleGuard 300).2.1 (by decide)).1,
   ((c10_rate_limit_guard DeepResearch.sampleGuard 300).2.1 (by decide)).2,
   (c10_rate_limit_guard DeepResearch.sampleGuard 300).2.2.2.2.1 (by decide)⟩
